import Mathlib

/-!
Verification of the redskyops/k8s-experiment core against its design
specification: the experiment phase state machine, condition upserts,
the cluster/remote synchronization codec, scenario-source generation,
and the quantity scaler.
-/

namespace RedSky

/-! ## Experiment phase state machine -/

/-- The lifecycle phase labels of an experiment. -/
inductive Phase where
  | empty
  | created
  | paused
  | running
  | completed
  | failed
  | deleted
  | idle
  deriving DecidableEq, Repr

/-- Condition status values (mirrors corev1.ConditionStatus). -/
inductive ConditionStatus where
  | true
  | false
  | unknown
  deriving DecidableEq, Repr

/-- Experiment-level condition types (mirrors optimizev1beta1.ExperimentConditionType). -/
inductive ExperimentConditionType where
  | complete
  | failed
  deriving DecidableEq, Repr

/-- One entry of an experiment's status conditions, with the two timestamps
tracked by ApplyCondition. Timestamps are abstracted as integers. -/
structure ExperimentCondition where
  type : ExperimentConditionType
  status : ConditionStatus
  reason : String
  message : String
  lastProbeTime : Int
  lastTransitionTime : Int
  deriving DecidableEq, Repr

/-- The slice of a cluster Experiment object that the phase computation and the
sync codec read: deletion timestamp presence, the three URL annotations
(modelled as optional strings rather than an untyped annotation map entry),
the optional desired replica count, and the status conditions. -/
structure Experiment where
  deletionTimestamp : Bool
  experimentURL : Option String
  nextTrialURL : Option String
  replicas : Option Int
  conditions : List ExperimentCondition
  deriving DecidableEq, Repr

/-- Whether a condition of the given type is recorded with status True. -/
def hasTrueCondition (e : Experiment) (t : ExperimentConditionType) : Bool :=
  e.conditions.any fun c => c.type = t && c.status = ConditionStatus.true

/-- Modelled from the spec: the `summarize` function of the experiment package
(its implementation is not under src/; only its test TestSummarize in
src/unnamed/part_007 is). It derives a single phase from the experiment, the
active trial count and the total trial count, per the precedence of spec
section 4.5, with the relative order of the Completed/Failed checks and the
Paused check taken from the test vectors: TestSummarize case
"paused budget done" (replicas = 0, no active trials, Complete condition true)
expects Completed, so the completion conditions are evaluated before Paused,
and Created/Empty are the fall-through cases. -/
def summarize (e : Experiment) (activeTrials : Int) (totalTrials : Int) : Phase :=
  if e.deletionTimestamp then Phase.deleted
  else if hasTrueCondition e ExperimentConditionType.complete then Phase.completed
  else if hasTrueCondition e ExperimentConditionType.failed then Phase.failed
  else if activeTrials > 0 then Phase.running
  else if e.replicas = some 0 then Phase.paused
  else if totalTrials > 0 then Phase.idle
  else if e.experimentURL.isSome then Phase.created
  else Phase.empty

/-- An experiment record with every signal absent. -/
def emptyExperiment : Experiment :=
  { deletionTimestamp := false
    experimentURL := none
    nextTrialURL := none
    replicas := none
    conditions := [] }

-- The twelve vectors of TestSummarize (src/unnamed/part_007), in order.
example : summarize emptyExperiment 0 0 = Phase.empty := by decide

example :
    summarize { emptyExperiment with experimentURL := some "http://example.com/experiment" } 0 0 =
      Phase.created := by decide

example : summarize { emptyExperiment with deletionTimestamp := true } 0 0 = Phase.deleted := by
  decide

example : summarize { emptyExperiment with deletionTimestamp := true } 1 0 = Phase.deleted := by
  decide

example :
    summarize { emptyExperiment with deletionTimestamp := true, replicas := some 1 } 0 0 =
      Phase.deleted := by decide

example : summarize { emptyExperiment with replicas := some 0 } 0 0 = Phase.paused := by decide

example : summarize { emptyExperiment with replicas := some 1 } 1 0 = Phase.running := by decide

example :
    summarize
      { emptyExperiment with
        experimentURL := some "http://example.com/experiment"
        replicas := some 0
        conditions := [{ type := ExperimentConditionType.complete
                         status := ConditionStatus.true
                         reason := "", message := ""
                         lastProbeTime := 0, lastTransitionTime := 0 }] } 0 0 =
      Phase.completed := by decide

example :
    summarize
      { emptyExperiment with
        experimentURL := some "http://example.com/experiment"
        nextTrialURL := some "http://example.com/experiment/next"
        replicas := some 0 } 0 0 =
      Phase.paused := by decide

example : summarize emptyExperiment 0 1 = Phase.idle := by decide

example :
    summarize { emptyExperiment with experimentURL := some "http://example.com/experiment" } 0 1 =
      Phase.idle := by decide

example :
    summarize
      { emptyExperiment with
        conditions := [{ type := ExperimentConditionType.failed
                         status := ConditionStatus.true
                         reason := "", message := ""
                         lastProbeTime := 0, lastTransitionTime := 0 }] } 0 0 =
      Phase.failed := by decide

/-! ## Condition upserts (ApplyCondition) -/

/-- The first condition of the given type, scanning the status conditions in
order (mirrors the lookup loop of ApplyCondition). -/
def findCondition (conds : List ExperimentCondition) (t : ExperimentConditionType) :
    Option ExperimentCondition :=
  match conds with
  | [] => none
  | c :: rest => if c.type = t then some c else findCondition rest t

/-- Modelled from the spec: `ApplyCondition(status, type, value, reason, message, time)`
of the experiment package (its implementation is not under src/; only its test
TestApplyCondition in src/unnamed/part_007 is). It upserts a single condition of
the given type: if the status value changes, the condition is replaced and both
timestamps are set to the supplied time; if the status is unchanged and reason and
message are also unchanged, nothing updates; if the status is unchanged but the
reason or message differ, only the last probe time is set to the supplied time
(the stored reason and message are kept, per the "update no change" test vector);
if no condition of the type exists, a new one is appended with both timestamps
set to the supplied time. -/
def applyCondition (conds : List ExperimentCondition) (t : ExperimentConditionType)
    (value : ConditionStatus) (reason message : String) (time : Int) :
    List ExperimentCondition :=
  match conds with
  | [] =>
      [{ type := t, status := value, reason := reason, message := message,
         lastProbeTime := time, lastTransitionTime := time }]
  | c :: rest =>
      if c.type = t then
        (if c.status ≠ value then
          { type := t, status := value, reason := reason, message := message,
            lastProbeTime := time, lastTransitionTime := time }
        else if c.reason = reason ∧ c.message = message then c
        else { c with lastProbeTime := time }) :: rest
      else
        c :: applyCondition rest t value reason message time

/-- Replace the first condition of the given type by the image of `f`, leaving
every other condition untouched. -/
def updateFirstCondition (conds : List ExperimentCondition) (t : ExperimentConditionType)
    (f : ExperimentCondition → ExperimentCondition) : List ExperimentCondition :=
  match conds with
  | [] => []
  | c :: rest =>
      if c.type = t then f c :: rest else c :: updateFirstCondition rest t f

-- The three vectors of TestApplyCondition (src/unnamed/part_007): the times
-- "then"/"now" of the test are rendered as 0 and 5.
example :
    applyCondition [] ExperimentConditionType.failed ConditionStatus.true
        "Testing" "Test Test" 5 =
      [{ type := ExperimentConditionType.failed, status := ConditionStatus.true,
         reason := "Testing", message := "Test Test",
         lastProbeTime := 5, lastTransitionTime := 5 }] := by decide

example :
    applyCondition
        [{ type := ExperimentConditionType.failed, status := ConditionStatus.false,
           reason := "Foo", message := "Bar",
           lastProbeTime := 0, lastTransitionTime := 0 }]
        ExperimentConditionType.failed ConditionStatus.true "Testing" "Test Test" 5 =
      [{ type := ExperimentConditionType.failed, status := ConditionStatus.true,
         reason := "Testing", message := "Test Test",
         lastProbeTime := 5, lastTransitionTime := 5 }] := by decide

example :
    applyCondition
        [{ type := ExperimentConditionType.failed, status := ConditionStatus.true,
           reason := "Foo", message := "Bar",
           lastProbeTime := 0, lastTransitionTime := 0 }]
        ExperimentConditionType.failed ConditionStatus.true "Testing" "Test Test" 5 =
      [{ type := ExperimentConditionType.failed, status := ConditionStatus.true,
         reason := "Foo", message := "Bar",
         lastProbeTime := 5, lastTransitionTime := 0 }] := by decide

/-- The experiment of the TestSummarize vector "paused budget done": synced,
desired replicas present and zero, no active trials, a true Complete condition. -/
def pausedBudgetDoneExperiment : Experiment :=
  { deletionTimestamp := false
    experimentURL := some "http://example.com/experiment"
    nextTrialURL := none
    replicas := some 0
    conditions := [{ type := ExperimentConditionType.complete
                     status := ConditionStatus.true
                     reason := "", message := ""
                     lastProbeTime := 0, lastTransitionTime := 0 }] }

/-- C1 counterexample: on an experiment whose desired replica count is present
and equals zero with no active trials but with a true experiment-level Complete
condition (the TestSummarize vector "paused budget done"), the phase computation
returns Completed, not Paused — so Paused is not evaluated before Completed. -/
theorem c1_paused_precedence_counterexample :
    summarize pausedBudgetDoneExperiment 0 0 = Phase.completed ∧
      summarize pausedBudgetDoneExperiment 0 0 ≠ Phase.paused := by decide

/-- C1 (amended): for every experiment whose desired replica count is present and
equals zero, with no active trials and no deletion timestamp, the phase
computation returns Paused exactly when no experiment-level Complete or Failed
condition is true; when a Complete condition is true it returns Completed even
in that configuration, because the completion conditions are evaluated before
Paused. -/
theorem c1_paused_requires_no_completion (e : Experiment) (a t : Int)
    (hdel : e.deletionTimestamp = false) (hrep : e.replicas = some 0) (ha : a ≤ 0) :
    (hasTrueCondition e ExperimentConditionType.complete = false →
      hasTrueCondition e ExperimentConditionType.failed = false →
      summarize e a t = Phase.paused) ∧
    (hasTrueCondition e ExperimentConditionType.complete = true →
      summarize e a t = Phase.completed) := by
  constructor
  · intro hc hf
    simp [summarize, hdel, hc, hf, hrep, show ¬a > 0 by omega]
  · intro hc
    simp [summarize, hdel, hc]

/-- Witness for C1 (amended): a paused experiment with replicas zero and a
completed one with a true Complete condition, at concrete inputs. -/
theorem c1_paused_requires_no_completion_witness :
    summarize { emptyExperiment with replicas := some 0 } 0 0 = Phase.paused ∧
      summarize pausedBudgetDoneExperiment 0 0 = Phase.completed := by
  constructor
  · exact (c1_paused_requires_no_completion
      { emptyExperiment with replicas := some 0 } 0 0 rfl rfl (le_refl 0)).1
      (by decide) (by decide)
  · exact (c1_paused_requires_no_completion pausedBudgetDoneExperiment 0 0 rfl rfl
      (le_refl 0)).2 (by decide)

/-- C2: the phase computation is a total function of
(experiment, activeTrialCount, totalTrialCount) that returns exactly one phase
label, and whenever a deletion timestamp is set on the experiment it returns
Deleted regardless of every other signal (active trials, replicas, conditions,
annotations). -/
theorem c2_summarize_total_deleted (e : Experiment) (a t : Int)
    (h : e.deletionTimestamp = true) :
    (∃! p : Phase, summarize e a t = p) ∧ summarize e a t = Phase.deleted := by
  have hd : summarize e a t = Phase.deleted := by simp [summarize, h]
  exact ⟨⟨Phase.deleted, hd, fun p hp => hp.symm.trans hd⟩, hd⟩

/-- Witness for C2: a deleted experiment with one active trial and a positive
configured replica count still summarizes to Deleted. -/
theorem c2_summarize_total_deleted_witness :
    summarize { emptyExperiment with deletionTimestamp := true, replicas := some 1 } 1 0 =
      Phase.deleted :=
  (c2_summarize_total_deleted
    { emptyExperiment with deletionTimestamp := true, replicas := some 1 } 1 0 rfl).2

/-- C3: for every status containing a condition of type `t` whose status value
is unchanged, ApplyCondition is a full no-op (both LastTransitionTime and
LastProbeTime preserved exactly) when the reason and message are also unchanged;
when only the reason or message differ, the result is the original list with
only the LastProbeTime of that condition set to the supplied time (its
LastTransitionTime — and every other field — preserved). -/
theorem c3_applyCondition_idempotence (conds : List ExperimentCondition)
    (t : ExperimentConditionType) (value : ConditionStatus) (reason message : String)
    (time : Int) (c : ExperimentCondition)
    (hfind : findCondition conds t = some c) (hstatus : c.status = value) :
    ((c.reason = reason ∧ c.message = message) →
        applyCondition conds t value reason message time = conds) ∧
    (¬(c.reason = reason ∧ c.message = message) →
        applyCondition conds t value reason message time =
          updateFirstCondition conds t fun x => { x with lastProbeTime := time }) := by
  induction conds with
  | nil => simp [findCondition] at hfind
  | cons c0 rest ih =>
    by_cases hty : c0.type = t
    · have hc : c0 = c := by simpa [findCondition, hty] using hfind
      subst hc
      constructor
      · rintro ⟨hr, hm⟩
        simp [applyCondition, hty, hstatus, hr, hm]
      · intro hrm
        simp [applyCondition, updateFirstCondition, hty, hstatus, hrm]
    · have hfind' : findCondition rest t = some c := by
        simpa [findCondition, hty] using hfind
      obtain ⟨ih1, ih2⟩ := ih hfind'
      constructor
      · intro hrm
        simp [applyCondition, hty, ih1 hrm]
      · intro hrm
        simp [applyCondition, updateFirstCondition, hty, ih2 hrm]

/-- The initial condition of the TestApplyCondition vectors "update no change":
a true Failed condition with reason "Foo" and message "Bar" at time 0. -/
def fooBarCondition : ExperimentCondition :=
  { type := ExperimentConditionType.failed, status := ConditionStatus.true,
    reason := "Foo", message := "Bar", lastProbeTime := 0, lastTransitionTime := 0 }

/-- Witness for C3: with identical status/reason/message the call is a full
no-op; with only reason/message changed, exactly the probe time is updated. -/
theorem c3_applyCondition_idempotence_witness :
    applyCondition [fooBarCondition] ExperimentConditionType.failed ConditionStatus.true
        "Foo" "Bar" 5 = [fooBarCondition] ∧
      applyCondition [fooBarCondition] ExperimentConditionType.failed ConditionStatus.true
          "Testing" "Test Test" 5 =
        updateFirstCondition [fooBarCondition] ExperimentConditionType.failed
          fun x => { x with lastProbeTime := 5 } := by
  constructor
  · exact (c3_applyCondition_idempotence [fooBarCondition] ExperimentConditionType.failed
      ConditionStatus.true "Foo" "Bar" 5 fooBarCondition (by decide) rfl).1 ⟨rfl, rfl⟩
  · exact (c3_applyCondition_idempotence [fooBarCondition] ExperimentConditionType.failed
      ConditionStatus.true "Testing" "Test Test" 5 fooBarCondition (by decide) rfl).2
      (by decide)

/-! ## Cluster/remote sync codec -/

/-- A value that is either an integer or a string (mirrors intstr.IntOrString on
the cluster side and numstr.NumberOrString on the remote side; integers are
modelled as unbounded with explicit wrapping/clamping where the code narrows). -/
inductive IntOrString where
  | int (i : Int)
  | str (s : String)
  deriving DecidableEq, Repr

/-- Cluster annotation key for the experiment self URL. -/
def annotationExperimentURL : String := "redskyops.dev/experiment-url"

/-- Cluster annotation key for the next trial URL. -/
def annotationNextTrialURL : String := "redskyops.dev/next-trial-url"

/-- Cluster annotation key for the report trial URL. -/
def annotationReportTrialURL : String := "redskyops.dev/report-trial-url"

/-- The sync finalizer written by the server package (value from the
TestToClusterTrial vector "32bit overflow"). -/
def syncFinalizer : String := "serverFinalizer.redskyops.dev"

/-- Look up a key in an annotation map (modelled as an association list). -/
def getAnnot (m : List (String × String)) (k : String) : Option String :=
  match m with
  | [] => none
  | (k0, v) :: rest => if k0 = k then some v else getAnnot rest k

/-- Upsert a key in an annotation map. -/
def setAnnot (m : List (String × String)) (k v : String) :
    List (String × String) :=
  match m with
  | [] => [(k, v)]
  | (k0, v0) :: rest =>
      if k0 = k then (k, v) :: rest else (k0, v0) :: setAnnot rest k v

/-- Delete a key from an annotation map. -/
def removeAnnot (m : List (String × String)) (k : String) :
    List (String × String) :=
  match m with
  | [] => []
  | (k0, v0) :: rest =>
      if k0 = k then removeAnnot rest k else (k0, v0) :: removeAnnot rest k

/-- Idempotent set-insertion of a finalizer marker. -/
def addFinalizer (fs : List String) (f : String) : List String :=
  if f ∈ fs then fs else fs ++ [f]

/-- The maximum 32-bit signed integer. -/
def maxInt32 : Int := 2147483647

/-- The minimum 32-bit signed integer. -/
def minInt32 : Int := -2147483648

/-- Saturating clamp of a wide integer into the 32-bit signed range (the
documented overflow policy of ToClusterTrial). -/
def clampToInt32 (v : Int) : Int :=
  if v > maxInt32 then maxInt32 else if v < minInt32 then minInt32 else v

/-- One remote assignment of a trial suggestion. -/
structure RemoteAssignment where
  parameterName : String
  value : IntOrString
  deriving DecidableEq, Repr

/-- The remote TrialAssignments wire object: self URL, labels, assignments. -/
structure TrialAssignments where
  selfURL : String
  labels : List (String × String)
  assignments : List RemoteAssignment
  deriving DecidableEq, Repr

/-- One cluster-side trial assignment. -/
structure Assignment where
  name : String
  value : IntOrString
  deriving DecidableEq, Repr

/-- The slice of a cluster Trial object touched by ToClusterTrial: naming
metadata, annotations, finalizers, the spec assignments, and the status phase
and human-readable assignments string. -/
structure Trial where
  name : String
  generateName : String
  annotations : List (String × String)
  finalizers : List String
  assignments : List Assignment
  phase : String
  statusAssignments : String
  deriving DecidableEq, Repr

/-- The decimal digit character for a value below ten. -/
def digitChar (n : Nat) : Char :=
  Char.ofNat (48 + n % 10)

/-- The numeric value of a decimal digit character, if it is one. -/
def charDigitVal (c : Char) : Option Nat :=
  if 48 ≤ c.toNat ∧ c.toNat ≤ 57 then some (c.toNat - 48) else none

/-- Decimal digits of a number, most significant first; `fuel` bounds the
recursion so the definition stays structurally recursive. -/
def natToDigitsAux (fuel n : Nat) : List Char :=
  match fuel with
  | 0 => []
  | fuel + 1 =>
      if n < 10 then [digitChar n]
      else natToDigitsAux fuel (n / 10) ++ [digitChar (n % 10)]

/-- Decimal rendering of a natural number. -/
def natToString (n : Nat) : String :=
  String.mk (natToDigitsAux (n + 1) n)

/-- Decimal rendering of an integer (mirrors strconv.FormatInt base 10). -/
def intToString (i : Int) : String :=
  if i < 0 then "-" ++ natToString i.natAbs else natToString i.toNat

/-- Parse a non-empty all-digit character list as a natural number. -/
def parseNatAux (l : List Char) (acc : Nat) : Option Nat :=
  match l with
  | [] => some acc
  | c :: cs =>
      match charDigitVal c with
      | some d => parseNatAux cs (acc * 10 + d)
      | none => none

/-- Parse a non-empty all-digit string as a natural number. -/
def parseNat (s : String) : Option Nat :=
  match s.data with
  | [] => none
  | l => parseNatAux l 0

/-- Split a character list on a separator character. -/
def splitOnChar (sep : Char) (l : List Char) : List (List Char) :=
  match l with
  | [] => [[]]
  | x :: xs =>
      let rest := splitOnChar sep xs
      if x = sep then [] :: rest
      else
        match rest with
        | [] => [[x]]
        | r :: rs => (x :: r) :: rs

/-- Zero-pad a number to at least three digits (mirrors fmt %03d). -/
def pad3 (n : Nat) : String :=
  let s := natToString n
  String.mk (List.replicate (3 - s.length) '0') ++ s

/-- The last `/`-separated segment of a URL. -/
def lastSegment (url : String) : String :=
  String.mk ((splitOnChar '/' url.data).getLastD [])

/-- Modelled from the spec: the naming step of ToClusterTrial (its
implementation is not under src/; only its test TestToClusterTrial in
src/unnamed/part_004 is). An explicit name is kept; otherwise, when the
suggestion's remote identifier (the last segment of its self URL) is a numeric
trial-run index it is appended to the generate-name prefix zero-padded to three
digits, and otherwise the identifier is appended verbatim. -/
def trialName (trial : Trial) (sugg : TrialAssignments) : String :=
  if trial.name ≠ "" then trial.name
  else
    let seg := lastSegment sugg.selfURL
    match parseNat seg with
    | some n => trial.generateName ++ pad3 n
    | none => trial.generateName ++ seg

/-- Convert one remote assignment value to the cluster representation:
integers are clamped into the 32-bit signed range, strings pass through. -/
def toClusterAssignmentValue : IntOrString → IntOrString
  | IntOrString.int v => IntOrString.int (clampToInt32 v)
  | IntOrString.str s => IntOrString.str s

/-- Render an assignment value for the human-readable status string. -/
def renderValue : IntOrString → String
  | IntOrString.int v => intToString v
  | IntOrString.str s => s

/-- The human-readable `Assignments` status string:
"name=value, name=value, …" in assignment order. -/
def assignmentsString (as : List Assignment) : String :=
  String.intercalate ", " (as.map fun a => a.name ++ "=" ++ renderValue a.value)

/-- Modelled from the spec: `ToClusterTrial(trial, suggestion)` of the server
package (its implementation is not under src/; only its test TestToClusterTrial
in src/unnamed/part_004 is). It names the trial, writes the report-trial-url
annotation from the suggestion's self URL, adds the sync finalizer, converts
each remote assignment to the cluster's 32-bit representation with a saturating
clamp, sets the status phase to Created and derives the human-readable
assignments string from the converted values. -/
def toClusterTrial (trial : Trial) (sugg : TrialAssignments) : Trial :=
  let assignments := sugg.assignments.map fun a =>
    { name := a.parameterName, value := toClusterAssignmentValue a.value }
  { trial with
    name := trialName trial sugg
    annotations := setAnnot trial.annotations annotationReportTrialURL sugg.selfURL
    finalizers := addFinalizer trial.finalizers syncFinalizer
    assignments := assignments
    phase := "Created"
    statusAssignments := assignmentsString assignments }

/-- A trial with every field empty, as in the TestToClusterTrial vectors. -/
def emptyTrial : Trial :=
  { name := "", generateName := "", annotations := [], finalizers := [],
    assignments := [], phase := "", statusAssignments := "" }

-- The three vectors of TestToClusterTrial (src/unnamed/part_004), in order.
example :
    toClusterTrial { emptyTrial with generateName := "generate_name" }
        { selfURL := "some/path/1", labels := [],
          assignments := [{ parameterName := "one", value := IntOrString.int 111 },
                          { parameterName := "two", value := IntOrString.int 222 },
                          { parameterName := "three", value := IntOrString.int 333 }] } =
      { name := "generate_name001", generateName := "generate_name",
        annotations := [(annotationReportTrialURL, "some/path/1")],
        finalizers := [syncFinalizer],
        assignments := [{ name := "one", value := IntOrString.int 111 },
                        { name := "two", value := IntOrString.int 222 },
                        { name := "three", value := IntOrString.int 333 }],
        phase := "Created",
        statusAssignments := "one=111, two=222, three=333" } := by decide

example :
    toClusterTrial { emptyTrial with generateName := "generate_name" }
        { selfURL := "some/path/one", labels := [],
          assignments := [{ parameterName := "one", value := IntOrString.int 111 },
                          { parameterName := "two", value := IntOrString.int 222 },
                          { parameterName := "three", value := IntOrString.int 333 }] } =
      { name := "generate_nameone", generateName := "generate_name",
        annotations := [(annotationReportTrialURL, "some/path/one")],
        finalizers := [syncFinalizer],
        assignments := [{ name := "one", value := IntOrString.int 111 },
                        { name := "two", value := IntOrString.int 222 },
                        { name := "three", value := IntOrString.int 333 }],
        phase := "Created",
        statusAssignments := "one=111, two=222, three=333" } := by decide

/-- The suggestion of the TestToClusterTrial vector "32bit overflow": a single
assignment carrying the maximum 64-bit signed integer, with an empty self URL. -/
def overflowSuggestion : TrialAssignments :=
  { selfURL := "", labels := [],
    assignments := [{ parameterName := "overflow", value := IntOrString.int (2 ^ 63 - 1) }] }

example :
    toClusterTrial emptyTrial overflowSuggestion =
      { name := "", generateName := "",
        annotations := [(annotationReportTrialURL, "")],
        finalizers := [syncFinalizer],
        assignments := [{ name := "overflow", value := IntOrString.int 2147483647 }],
        phase := "Created",
        statusAssignments := "overflow=2147483647" } := by decide

/-- The saturating clamp agrees with the min/max characterization. -/
theorem clampToInt32_eq_max_min (v : Int) :
    clampToInt32 v = max minInt32 (min maxInt32 v) := by
  simp only [clampToInt32, maxInt32, minInt32]
  split
  · omega
  · split <;> omega

/-- C4: for every trial and suggestion, ToClusterTrial converts each remote
integer assignment value by a saturating clamp into the 32-bit signed range
(min/max saturation, not rejection or wraparound), the derived human-readable
Assignments status string is computed from the clamped cluster values (not the
originals), the maximum 64-bit signed integer clamps to the maximum 32-bit
signed integer, and on the concrete overflow suggestion the status string
displays the clamped value. -/
theorem c4_toClusterTrial_clamps (trial : Trial) (sugg : TrialAssignments) :
    ((toClusterTrial trial sugg).assignments = sugg.assignments.map fun a =>
        { name := a.parameterName,
          value := match a.value with
                   | IntOrString.int v => IntOrString.int (max minInt32 (min maxInt32 v))
                   | IntOrString.str s => IntOrString.str s }) ∧
    (toClusterTrial trial sugg).statusAssignments =
        assignmentsString ((toClusterTrial trial sugg).assignments) ∧
    clampToInt32 (2 ^ 63 - 1) = maxInt32 ∧
    (toClusterTrial emptyTrial overflowSuggestion).statusAssignments =
        "overflow=2147483647" := by
  refine ⟨?_, rfl, by decide, by decide⟩
  simp only [toClusterTrial]
  refine List.map_congr_left fun a _ => ?_
  cases h : a.value with
  | int v => simp [toClusterAssignmentValue, h, clampToInt32_eq_max_min]
  | str s => simp [toClusterAssignmentValue, h]

/-- C6 counterexample: ToClusterTrial on the "32bit overflow" test vector (a
suggestion whose self URL is empty) writes the report-trial-url annotation with
the empty string — a synced trial can carry an empty-string URL annotation, so
the annotation written is not always non-empty. -/
theorem c6_empty_url_annotation_counterexample :
    getAnnot (toClusterTrial emptyTrial overflowSuggestion).annotations
        annotationReportTrialURL = some "" := by decide

/-- A cluster experiment parameter: numeric bounds, optional categorical value
set, optional baseline. -/
structure ClusterParameter where
  name : String
  min : Int
  max : Int
  values : List String
  baseline : Option IntOrString
  deriving DecidableEq, Repr

/-- The slice of a cluster Experiment object touched by the sync codec: naming,
annotations, finalizers, parameters, and optimization hints. -/
structure ClusterExperiment where
  name : String
  annotations : List (String × String)
  finalizers : List String
  parameters : List ClusterParameter
  optimization : List (String × String)
  deriving DecidableEq, Repr

/-- Remote parameter types. -/
inductive ParameterType where
  | integer
  | categorical
  deriving DecidableEq, Repr

/-- String-encoded numeric bounds of a remote integer parameter. -/
structure Bounds where
  min : String
  max : String
  deriving DecidableEq, Repr

/-- A remote wire parameter. -/
structure RemoteParameter where
  type : ParameterType
  name : String
  bounds : Option Bounds
  values : List String
  deriving DecidableEq, Repr

/-- The remote wire experiment: metadata URLs, optimization hints, parameters. -/
structure RemoteExperiment where
  selfURL : String
  nextTrialURL : String
  optimization : List (String × String)
  parameters : List RemoteParameter
  deriving DecidableEq, Repr

/-- Modelled from the spec: the per-parameter translation of FromCluster (its
implementation is not under src/; only its test TestFromCluster in
src/unnamed/part_004 is). A parameter with an explicit value set is categorical
and carries its value list instead of bounds; otherwise an integer parameter
gets string-encoded decimal min/max bounds — except that a parameter whose Min
equals Max is dropped entirely, per the TestFromCluster "parameters" vector,
whose input parameter "test_case" (Min = Max = 1) is absent from the expected
output. -/
def fromClusterParameter (p : ClusterParameter) : Option RemoteParameter :=
  if p.values ≠ [] then
    some { type := ParameterType.categorical, name := p.name, bounds := none,
           values := p.values }
  else if p.min = p.max then none
  else
    some { type := ParameterType.integer, name := p.name,
           bounds := some { min := intToString p.min, max := intToString p.max },
           values := [] }

/-- The integer value of an int-or-string (mirrors intstr.IntValue: strings are
parsed, defaulting to zero). -/
def intOrStringIntValue : IntOrString → Int
  | IntOrString.int v => v
  | IntOrString.str s => (((parseNat s).map Int.ofNat).getD 0)

/-- A baseline assignment value typed according to the parameter's declared
type: string for categorical parameters, integer otherwise. -/
def baselineAssignmentValue (categorical : Bool) (b : IntOrString) : IntOrString :=
  if categorical then IntOrString.str (renderValue b)
  else IntOrString.int (intOrStringIntValue b)

/-- The baseline assignments carried by parameters that declare one. -/
def baselineAssignments (ps : List ClusterParameter) : List RemoteAssignment :=
  ps.filterMap fun p =>
    p.baseline.map fun b =>
      { parameterName := p.name,
        value := baselineAssignmentValue (!p.values.isEmpty) b }

/-- Modelled from the spec: `FromCluster(experiment)` of the server package (its
implementation is not under src/; only its test TestFromCluster in
src/unnamed/part_004 is). It returns the experiment name, the remote experiment
(metadata URLs from the annotations, optimization hints copied verbatim, and the
translated parameter list), and — when any parameter carries a baseline value —
a synthetic TrialAssignments labeled baseline=true with each assignment typed
according to its parameter's declared type. -/
def fromCluster (exp : ClusterExperiment) :
    String × RemoteExperiment × Option TrialAssignments :=
  (exp.name,
   { selfURL := (getAnnot exp.annotations annotationExperimentURL).getD ""
     nextTrialURL := (getAnnot exp.annotations annotationNextTrialURL).getD ""
     optimization := exp.optimization
     parameters := exp.parameters.filterMap fromClusterParameter },
   if exp.parameters.any fun p => p.baseline.isSome then
     some { selfURL := "", labels := [("baseline", "true")],
            assignments := baselineAssignments exp.parameters }
   else none)

/-- The parameter list of the TestFromCluster vector "parameters", including the
"test_case" parameter with equal bounds. -/
def testFromClusterParameters : List ClusterParameter :=
  [{ name := "one", min := 111, max := 222, values := [], baseline := none },
   { name := "two", min := 1111, max := 2222, values := [], baseline := none },
   { name := "three", min := 11111, max := 22222, values := [], baseline := none },
   { name := "test_case", min := 1, max := 1, values := [], baseline := none }]

/-- The cluster experiment of the TestFromCluster vector "parameters". -/
def testParametersExperiment : ClusterExperiment :=
  { name := "parameters", annotations := [], finalizers := [],
    parameters := testFromClusterParameters, optimization := [] }

-- The TestFromCluster vectors "basic", "parameters" and "baseline"
-- (src/unnamed/part_004).
example :
    fromCluster
      { name := "basic",
        annotations := [(annotationExperimentURL, "self_111"),
                        (annotationNextTrialURL, "next_trial_111")],
        finalizers := [], parameters := [], optimization := [] } =
      ("basic",
       { selfURL := "self_111", nextTrialURL := "next_trial_111",
         optimization := [], parameters := [] },
       none) := by decide

example :
    fromCluster testParametersExperiment =
      ("parameters",
       { selfURL := "", nextTrialURL := "", optimization := [],
         parameters :=
           [{ type := ParameterType.integer, name := "one",
              bounds := some { min := "111", max := "222" }, values := [] },
            { type := ParameterType.integer, name := "two",
              bounds := some { min := "1111", max := "2222" }, values := [] },
            { type := ParameterType.integer, name := "three",
              bounds := some { min := "11111", max := "22222" }, values := [] }] },
       none) := by decide

example :
    fromCluster
      { name := "baseline", annotations := [], finalizers := [],
        parameters :=
          [{ name := "one", min := 0, max := 1, values := [],
             baseline := some (IntOrString.int 1) },
           { name := "two", min := 0, max := 2, values := [],
             baseline := some (IntOrString.int 2) },
           { name := "three", min := 0, max := 0, values := ["three"],
             baseline := some (IntOrString.str "three") }],
        optimization := [] } =
      ("baseline",
       { selfURL := "", nextTrialURL := "", optimization := [],
         parameters :=
           [{ type := ParameterType.integer, name := "one",
              bounds := some { min := "0", max := "1" }, values := [] },
            { type := ParameterType.integer, name := "two",
              bounds := some { min := "0", max := "2" }, values := [] },
            { type := ParameterType.categorical, name := "three", bounds := none,
              values := ["three"] }] },
       some { selfURL := "", labels := [("baseline", "true")],
              assignments :=
                [{ parameterName := "one", value := IntOrString.int 1 },
                 { parameterName := "two", value := IntOrString.int 2 },
                 { parameterName := "three", value := IntOrString.str "three" }] }) := by
  decide

/-- Modelled from the spec: `ToCluster(experiment, remoteExperiment)` of the
server package (its implementation is not under src/; only its test
TestToCluster in src/unnamed/part_004 is). It writes the self and next-trial URL
annotations, copies the Optimization hints verbatim, and ensures the sync
finalizer is present exactly once via idempotent set-insertion. -/
def toCluster (exp : ClusterExperiment) (ee : RemoteExperiment) : ClusterExperiment :=
  { exp with
    annotations :=
      setAnnot (setAnnot exp.annotations annotationExperimentURL ee.selfURL)
        annotationNextTrialURL ee.nextTrialURL
    finalizers := addFinalizer exp.finalizers syncFinalizer
    optimization := ee.optimization }

-- The TestToCluster vector "basic" (src/unnamed/part_004).
example :
    toCluster
      { name := "", annotations := [], finalizers := [], parameters := [],
        optimization := [] }
      { selfURL := "self_111", nextTrialURL := "next_trial_111",
        optimization := [("one", "111"), ("two", "222"), ("three", "333")],
        parameters := [] } =
      { name := "",
        annotations := [(annotationExperimentURL, "self_111"),
                        (annotationNextTrialURL, "next_trial_111")],
        finalizers := [syncFinalizer], parameters := [],
        optimization := [("one", "111"), ("two", "222"), ("three", "333")] } := by decide

/-- Looking up an upserted key yields the upserted value. -/
theorem getAnnot_setAnnot_self (m : List (String × String)) (k v : String) :
    getAnnot (setAnnot m k v) k = some v := by
  induction m with
  | nil => simp [setAnnot, getAnnot]
  | cons kv rest ih =>
    obtain ⟨k0, v0⟩ := kv
    by_cases h : k0 = k
    · simp [setAnnot, getAnnot, h]
    · simp [setAnnot, getAnnot, h, ih]

/-- Upserting one key does not change the lookup of another. -/
theorem getAnnot_setAnnot_ne (m : List (String × String)) (k v k' : String)
    (h : k ≠ k') : getAnnot (setAnnot m k v) k' = getAnnot m k' := by
  induction m with
  | nil => simp [setAnnot, getAnnot, h]
  | cons kv rest ih =>
    obtain ⟨k0, v0⟩ := kv
    by_cases h0 : k0 = k
    · subst h0
      simp [setAnnot, getAnnot, h]
    · simp [setAnnot, getAnnot, h0, ih]

/-- Looking up a deleted key yields nothing. -/
theorem getAnnot_removeAnnot_self (m : List (String × String)) (k : String) :
    getAnnot (removeAnnot m k) k = none := by
  induction m with
  | nil => simp [removeAnnot, getAnnot]
  | cons kv rest ih =>
    obtain ⟨k0, v0⟩ := kv
    by_cases h : k0 = k
    · simp [removeAnnot, h, ih]
    · simp [removeAnnot, getAnnot, h, ih]

/-- Deleting one key does not change the lookup of another. -/
theorem getAnnot_removeAnnot_ne (m : List (String × String)) (k k' : String)
    (h : k' ≠ k) : getAnnot (removeAnnot m k) k' = getAnnot m k' := by
  induction m with
  | nil => simp [removeAnnot]
  | cons kv rest ih =>
    obtain ⟨k0, v0⟩ := kv
    by_cases h0 : k0 = k
    · subst h0
      have : k0 ≠ k' := fun hh => h (hh.symm)
      simp [removeAnnot, getAnnot, this, ih]
    · simp [removeAnnot, getAnnot, h0, ih]

/-- C5 counterexample: FromCluster on the TestFromCluster "parameters" input —
whose parameter "test_case" has Min = Max = 1 and no explicit value set — emits
only the three parameters with distinct bounds; "test_case" is omitted from the
remote experiment's parameter list rather than emitted as an integer parameter
with equal bounds. -/
theorem c5_min_eq_max_counterexample :
    ((fromCluster testParametersExperiment).2.1.parameters.map RemoteParameter.name) =
        ["one", "two", "three"] ∧
      "test_case" ∉
        ((fromCluster testParametersExperiment).2.1.parameters.map RemoteParameter.name) := by
  decide

/-- A parameter with equal bounds and no explicit values yields no remote
parameter. -/
theorem fromClusterParameter_min_eq_max (p : ClusterParameter) (hv : p.values = [])
    (hmm : p.min = p.max) : fromClusterParameter p = none := by
  simp [fromClusterParameter, hv, hmm]

/-- C5 (amended): a cluster experiment parameter whose Min bound equals its Max
bound and which has no explicit value set is omitted from the remote
experiment's parameter list by FromCluster: it translates to no remote
parameter, and dropping all such parameters from the input leaves the translated
parameter list unchanged. -/
theorem c5_min_eq_max_omitted (p : ClusterParameter) (hv : p.values = [])
    (hmm : p.min = p.max) :
    fromClusterParameter p = none ∧
    ∀ ps : List ClusterParameter,
      ps.filterMap fromClusterParameter =
        (ps.filter fun q => !(q.values.isEmpty && q.min == q.max)).filterMap
          fromClusterParameter := by
  refine ⟨fromClusterParameter_min_eq_max p hv hmm, ?_⟩
  intro ps
  induction ps with
  | nil => rfl
  | cons q rest ih =>
    by_cases h1 : q.values = []
    · by_cases h2 : q.min = q.max
      · have hq : fromClusterParameter q = none :=
          fromClusterParameter_min_eq_max q h1 h2
        simp [List.filterMap_cons, List.filter_cons, hq, h1, h2, ih]
      · cases hfq : fromClusterParameter q <;>
          simp [List.filterMap_cons, List.filter_cons, hfq, h1, h2, ih]
    · cases hfq : fromClusterParameter q <;>
        simp [List.filterMap_cons, List.filter_cons, hfq, h1, ih]

/-- Witness for C5 (amended): the concrete "test_case" parameter of the
TestFromCluster "parameters" vector translates to no remote parameter. -/
theorem c5_min_eq_max_omitted_witness :
    fromClusterParameter
        { name := "test_case", min := 1, max := 1, values := [], baseline := none } =
      none :=
  (c5_min_eq_max_omitted
    { name := "test_case", min := 1, max := 1, values := [], baseline := none } rfl rfl).1

/-- C6 (amended): after ToClusterTrial the report-trial-url annotation is always
present and carries exactly the suggestion's self URL — which may be the empty
string, as on the "32bit overflow" test vector — and after ToCluster the
experiment-url and next-trial-url annotations are present and carry the remote
experiment's URLs. Presence of the annotation, not its non-emptiness, is what
marks an object as synced. -/
theorem c6_url_annotations_written (trial : Trial) (sugg : TrialAssignments)
    (exp : ClusterExperiment) (ee : RemoteExperiment) :
    getAnnot (toClusterTrial trial sugg).annotations annotationReportTrialURL =
        some sugg.selfURL ∧
    getAnnot (toCluster exp ee).annotations annotationExperimentURL =
        some ee.selfURL ∧
    getAnnot (toCluster exp ee).annotations annotationNextTrialURL =
        some ee.nextTrialURL := by
  refine ⟨?_, ?_, ?_⟩
  · exact getAnnot_setAnnot_self trial.annotations annotationReportTrialURL
      sugg.selfURL
  · have hne : annotationNextTrialURL ≠ annotationExperimentURL := by decide
    calc getAnnot (toCluster exp ee).annotations annotationExperimentURL
        = getAnnot (setAnnot exp.annotations annotationExperimentURL ee.selfURL)
            annotationExperimentURL :=
          getAnnot_setAnnot_ne _ annotationNextTrialURL ee.nextTrialURL
            annotationExperimentURL hne
      _ = some ee.selfURL :=
          getAnnot_setAnnot_self exp.annotations annotationExperimentURL ee.selfURL
  · exact getAnnot_setAnnot_self _ annotationNextTrialURL ee.nextTrialURL

/-- Remote API error kinds (the experimentsv1alpha1.Error types appearing in
TestStopExperiment, plus the other well-typed remote error kinds named by the
spec's error-handling section). -/
inductive RemoteErrorType where
  | experimentStopped
  | experimentNameInvalid
  | experimentNotFound
  | unauthorized
  deriving DecidableEq, Repr

/-- Modelled from the spec: `StopExperiment(experiment, err)` of the server
package (its implementation is not under src/; only its test TestStopExperiment
in src/unnamed/part_004 is). Only the "experiment stopped" remote error kind is
handled: on match the next-trial-url annotation is cleared and true is returned;
a nil error and every other error kind leave the experiment untouched and
return false. -/
def stopExperiment (exp : ClusterExperiment) (err : Option RemoteErrorType) :
    Bool × ClusterExperiment :=
  match err with
  | some RemoteErrorType.experimentStopped =>
      (true,
       { exp with annotations := removeAnnot exp.annotations annotationNextTrialURL })
  | _ => (false, exp)

-- The three vectors of TestStopExperiment (src/unnamed/part_004), in order.
example :
    stopExperiment
        { name := "", annotations := [], finalizers := [], parameters := [],
          optimization := [] } none =
      (false,
       { name := "", annotations := [], finalizers := [], parameters := [],
         optimization := [] }) := by decide

example :
    stopExperiment
        { name := "", annotations := [], finalizers := [], parameters := [],
          optimization := [] }
        (some RemoteErrorType.experimentNameInvalid) =
      (false,
       { name := "", annotations := [], finalizers := [], parameters := [],
         optimization := [] }) := by decide

example :
    stopExperiment
        { name := "", annotations := [(annotationNextTrialURL, "111")], finalizers := [],
          parameters := [], optimization := [] }
        (some RemoteErrorType.experimentStopped) =
      (true,
       { name := "", annotations := [], finalizers := [], parameters := [],
         optimization := [] }) := by decide

/-- C7: StopExperiment returns true and removes exactly the next-trial-url
annotation when the error is the remote "experiment stopped" kind (the lookup of
every other annotation key, and every other experiment field, is unchanged); for
a nil error and every other error kind it returns false and leaves the
experiment completely unchanged. -/
theorem c7_stopExperiment_only_stopped (exp : ClusterExperiment)
    (err : Option RemoteErrorType) :
    (err = some RemoteErrorType.experimentStopped →
      (stopExperiment exp err).1 = true ∧
      getAnnot (stopExperiment exp err).2.annotations annotationNextTrialURL = none ∧
      (∀ k, k ≠ annotationNextTrialURL →
        getAnnot (stopExperiment exp err).2.annotations k =
          getAnnot exp.annotations k) ∧
      (stopExperiment exp err).2.name = exp.name ∧
      (stopExperiment exp err).2.finalizers = exp.finalizers ∧
      (stopExperiment exp err).2.parameters = exp.parameters ∧
      (stopExperiment exp err).2.optimization = exp.optimization) ∧
    (err ≠ some RemoteErrorType.experimentStopped →
      stopExperiment exp err = (false, exp)) := by
  constructor
  · intro h
    subst h
    refine ⟨rfl, ?_, ?_, rfl, rfl, rfl, rfl⟩
    · exact getAnnot_removeAnnot_self exp.annotations annotationNextTrialURL
    · intro k hk
      exact getAnnot_removeAnnot_ne exp.annotations annotationNextTrialURL k hk
  · intro h
    match err with
    | none => rfl
    | some RemoteErrorType.experimentNameInvalid => rfl
    | some RemoteErrorType.experimentNotFound => rfl
    | some RemoteErrorType.unauthorized => rfl
    | some RemoteErrorType.experimentStopped => exact absurd rfl h

/-- The experiment of the TestStopExperiment vector "error": it carries a
next-trial-url annotation. -/
def stopErrorExperiment : ClusterExperiment :=
  { name := "", annotations := [(annotationNextTrialURL, "111")], finalizers := [],
    parameters := [], optimization := [] }

/-- Witness for C7: on the "experiment stopped" error the annotation is cleared
and true returned; on an "experiment name invalid" error nothing changes and
false is returned. -/
theorem c7_stopExperiment_only_stopped_witness :
    (stopExperiment stopErrorExperiment (some RemoteErrorType.experimentStopped)).1 =
        true ∧
      getAnnot
          (stopExperiment stopErrorExperiment
              (some RemoteErrorType.experimentStopped)).2.annotations
          annotationNextTrialURL = none ∧
      stopExperiment stopErrorExperiment (some RemoteErrorType.experimentNameInvalid) =
        (false, stopErrorExperiment) := by
  refine ⟨?_, ?_, ?_⟩
  · exact ((c7_stopExperiment_only_stopped stopErrorExperiment
      (some RemoteErrorType.experimentStopped)).1 rfl).1
  · exact ((c7_stopExperiment_only_stopped stopErrorExperiment
      (some RemoteErrorType.experimentStopped)).1 rfl).2.1
  · exact (c7_stopExperiment_only_stopped stopErrorExperiment
      (some RemoteErrorType.experimentNameInvalid)).2 (by decide)

/-! ## Scenario sources: Update (src/unnamed/part_006 CustomSource.Update and
src/internal/experiment/generation/locust.go LocustSource.Update) -/

/-- A container volume mount (the fields LocustSource.Update writes). -/
structure VolumeMount where
  name : String
  readOnly : Bool
  mountPath : String
  deriving DecidableEq, Repr

/-- An environment variable of a container. -/
structure EnvVar where
  name : String
  value : String
  deriving DecidableEq, Repr

/-- A pod container: the fields the scenario sources read and write. -/
structure Container where
  name : String
  image : String
  env : List EnvVar
  volumeMounts : List VolumeMount
  deriving DecidableEq, Repr

/-- A pod volume backed by a config map (the only volume kind the sources use). -/
structure Volume where
  name : String
  configMapName : String
  deriving DecidableEq, Repr

/-- A pod template spec: the fields the scenario sources touch. -/
structure PodSpec where
  containers : List Container
  volumes : List Volume
  deriving DecidableEq, Repr

/-- The trial template fields touched by the scenario sources: the job's pod
template (none when no job template exists yet), the initial delay, and the
approximate runtime in seconds. -/
structure TrialTemplate where
  jobPod : Option PodSpec
  initialDelaySeconds : Int
  approximateRuntimeSeconds : Option Int
  deriving DecidableEq, Repr

/-- The slice of a generated (v1beta1) Experiment the scenario sources mutate.
Named GenExperiment to keep it apart from the phase machine's Experiment. -/
structure GenExperiment where
  trialTemplate : TrialTemplate
  deriving DecidableEq, Repr

/-- An empty pod spec. -/
def emptyPod : PodSpec := { containers := [], volumes := [] }

/-- Mirrors ensureTrialJobPod: the trial job's pod template, an empty one when
no job template exists yet. -/
def ensureTrialJobPod (e : GenExperiment) : PodSpec :=
  e.trialTemplate.jobPod.getD emptyPod

/-- Store the trial job pod template (creating the job template). -/
def setTrialJobPod (e : GenExperiment) (p : PodSpec) : GenExperiment :=
  { e with trialTemplate := { e.trialTemplate with jobPod := some p } }

/-- The Custom scenario fields read by CustomSource (Scenario.Custom). -/
structure CustomScenario where
  podTemplate : Option PodSpec
  initialDelaySeconds : Int
  approximateRuntimeSeconds : Int
  image : String
  usePushGateway : Bool
  deriving DecidableEq, Repr

/-- The container-name back-fill of CustomSource.Update: the image basename —
the part after the last slash, cut before the first colon when that colon is not
at position zero. -/
def backfillName (image : String) : String :=
  let name := String.mk ((splitOnChar '/' image.data).getLastD [])
  match splitOnChar ':' name.data with
  | first :: _ :: _ => if first ≠ [] then String.mk first else name
  | _ => name

/-- Back-fill a container's missing name from its image basename. -/
def backfillContainer (c : Container) : Container :=
  if c.name = "" then { c with name := backfillName c.image } else c

/-- The pod-template copy step of CustomSource.Update: a declared pod template
is deep-copied over the trial job pod. -/
def podTemplateStep (sc : CustomScenario) (e : GenExperiment) : GenExperiment :=
  match sc.podTemplate with
  | some pt => setTrialJobPod e pt
  | none => e

/-- The initial-delay step of CustomSource.Update: a positive declared delay
overwrites the trial template's. -/
def delayStep (sc : CustomScenario) (e : GenExperiment) : GenExperiment :=
  if sc.initialDelaySeconds > 0 then
    { e with trialTemplate :=
        { e.trialTemplate with initialDelaySeconds := sc.initialDelaySeconds } }
  else e

/-- The approximate-runtime step of CustomSource.Update: a positive declared
runtime overwrites the trial template's. -/
def runtimeStep (sc : CustomScenario) (e : GenExperiment) : GenExperiment :=
  if sc.approximateRuntimeSeconds > 0 then
    { e with trialTemplate :=
        { e.trialTemplate with
          approximateRuntimeSeconds := some sc.approximateRuntimeSeconds } }
  else e

/-- Overwrite the image of the first container. -/
def setHeadImage (cs : List Container) (img : String) : List Container :=
  match cs with
  | [] => []
  | c :: rest => { c with image := img } :: rest

/-- A zero-valued container (make([]corev1.Container, 1)). -/
def emptyContainer : Container :=
  { name := "", image := "", env := [], volumeMounts := [] }

/-- Replace an empty container list with a single zero-valued container. -/
def ensureNonemptyContainers (pod : PodSpec) : PodSpec :=
  if pod.containers = [] then { pod with containers := [emptyContainer] } else pod

/-- The pod produced by the image step of CustomSource.Update from a trial job
pod: containers are made non-empty and the first container's image is set. -/
def imagePod (img : String) (j : Option PodSpec) : PodSpec :=
  { ensureNonemptyContainers (j.getD emptyPod) with
    containers := setHeadImage (ensureNonemptyContainers (j.getD emptyPod)).containers img }

/-- The image step of CustomSource.Update: a non-empty declared image is written
into the first container of the trial job pod, which is created (with a single
empty container) if needed. -/
def imageStep (sc : CustomScenario) (e : GenExperiment) : GenExperiment :=
  if sc.image ≠ "" then setTrialJobPod e (imagePod sc.image e.trialTemplate.jobPod)
  else e

/-- Back-fill the missing container names of a pod. -/
def backfillPod (pod : PodSpec) : PodSpec :=
  { pod with containers := pod.containers.map backfillContainer }

/-- The clean-up step of CustomSource.Update: when a job template exists, every
container with an empty name gets one back-filled from its image basename. -/
def backfillStep (e : GenExperiment) : GenExperiment :=
  match e.trialTemplate.jobPod with
  | some pod => setTrialJobPod e (backfillPod pod)
  | none => e

/-- CustomSource.Update (src/unnamed/part_006, lines 41-82) on a source whose
scenario and application are both present: copy the declared pod template, then
the timing fields, then the image, then back-fill missing container names. -/
def customUpdateCore (sc : CustomScenario) (e : GenExperiment) : GenExperiment :=
  backfillStep (imageStep sc (runtimeStep sc (delayStep sc (podTemplateStep sc e))))

/-- CustomSource.Update (src/unnamed/part_006): a source with a nil scenario or
nil application leaves the experiment unchanged. -/
def customUpdate (sc : Option CustomScenario) (hasApplication : Bool)
    (e : GenExperiment) : GenExperiment :=
  match sc, hasApplication with
  | some sc, true => customUpdateCore sc e
  | _, _ => e

/-- The Locust scenario fields read by LocustSource (Scenario.Locust plus the
scenario name). The run time is kept in whole seconds as rendered by Update. -/
structure LocustScenario where
  name : String
  users : Option Int
  spawnRate : Option Int
  runTimeSeconds : Option Int
  locustfile : String
  deriving DecidableEq, Repr

/-- The slice of an Application read by LocustSource.Update: the ingress URL,
empty when no ingress is configured. -/
structure ApplicationModel where
  ingressURL : String
  deriving DecidableEq, Repr

/-- locustEnv (src/internal/experiment/generation/locust.go): NUM_USERS,
SPAWN_RATE and RUN_TIME environment variables for the declared settings. -/
def locustEnv (sc : LocustScenario) : List EnvVar :=
  (match sc.users with
   | some u => [{ name := "NUM_USERS", value := intToString u }]
   | none => []) ++
  (match sc.spawnRate with
   | some r => [{ name := "SPAWN_RATE", value := intToString r }]
   | none => []) ++
  (match sc.runTimeSeconds with
   | some t => [{ name := "RUN_TIME", value := intToString t }]
   | none => [])

/-- locustConfigMapName: the scenario name suffixed with -locustfile. -/
def locustConfigMapName (sc : LocustScenario) : String :=
  sc.name ++ "-locustfile"

/-- The locust container written by LocustSource.Update; the trial job image is
supplied by the caller (trialJobImage is an external build-time constant). -/
def locustContainer (jobImage : String) (sc : LocustScenario) : Container :=
  { name := "locust", image := jobImage, env := locustEnv sc,
    volumeMounts := [{ name := "locustfile", readOnly := true,
                       mountPath := "/mnt/locust" }] }

/-- LocustSource.Update (src/internal/experiment/generation/locust.go, lines
40-85): with scenario and application present it overwrites the trial job pod's
containers with the single locust container and its volumes with the locustfile
config-map volume, then fails when no ingress URL is configured, and otherwise
appends the HOST environment variable; with a nil scenario or application it
leaves the experiment unchanged. -/
def locustUpdate (jobImage : String) (sc : Option LocustScenario)
    (app : Option ApplicationModel) (e : GenExperiment) :
    Except String GenExperiment :=
  match sc, app with
  | some sc, some app =>
      let pod := ensureTrialJobPod e
      let pod :=
        { pod with
          containers := [locustContainer jobImage sc]
          volumes := [{ name := "locustfile", configMapName := locustConfigMapName sc }] }
      if app.ingressURL = "" then
        Except.error "ingress must be configured when using Locust scenarios"
      else
        Except.ok (setTrialJobPod e
          { pod with
            containers :=
              [{ locustContainer jobImage sc with
                 env := (locustContainer jobImage sc).env ++
                   [{ name := "HOST", value := app.ingressURL }] }] })
  | _, _ => Except.ok e

/-- Back-filling preserves a container's image. -/
theorem backfillContainer_image (c : Container) :
    (backfillContainer c).image = c.image := by
  unfold backfillContainer
  split <;> rfl

/-- Back-filling a container twice is the same as once. -/
theorem backfillContainer_idem (c : Container) :
    backfillContainer (backfillContainer c) = backfillContainer c := by
  by_cases h : c.name = ""
  · by_cases h2 : backfillName c.image = ""
    · simp [backfillContainer, h, h2]
    · simp [backfillContainer, h, h2]
  · simp [backfillContainer, h]

/-- Back-filling a container list twice is the same as once. -/
theorem map_backfill_idem (l : List Container) :
    (l.map backfillContainer).map backfillContainer = l.map backfillContainer := by
  rw [List.map_map]
  refine List.map_congr_left fun c _ => ?_
  simp only [Function.comp_apply]
  exact backfillContainer_idem c

/-- Setting the head image to the value it already has changes nothing. -/
theorem setHead_self (c : Container) (t : List Container) (img : String)
    (h : c.image = img) : setHeadImage (c :: t) img = c :: t := by
  subst h
  rfl

/-- The image step always leaves a first container carrying the image. -/
theorem imagePod_containers (img : String) (j : Option PodSpec) :
    ∃ c t, (imagePod img j).containers = c :: t ∧ c.image = img := by
  cases j with
  | none =>
      exact ⟨{ emptyContainer with image := img }, [], rfl, rfl⟩
  | some pod =>
      cases hc : pod.containers with
      | nil =>
          refine ⟨{ emptyContainer with image := img }, [], ?_, rfl⟩
          simp [imagePod, ensureNonemptyContainers, hc, setHeadImage]
      | cons c t =>
          refine ⟨{ c with image := img }, t, ?_, rfl⟩
          simp [imagePod, ensureNonemptyContainers, hc, setHeadImage]

/-- Back-filling twice is the same as once, at the pod level. -/
theorem backfillPod_idem (p : PodSpec) : backfillPod (backfillPod p) = backfillPod p := by
  simp [backfillPod]
  exact fun a _ => backfillContainer_idem a

/-- The image step on a present pod, spelled without the Option. -/
theorem imagePod_some (img : String) (B : PodSpec) :
    imagePod img (some B) =
      { ensureNonemptyContainers B with
        containers := setHeadImage (ensureNonemptyContainers B).containers img } := rfl

/-- Re-running the image step on an already image-set and back-filled pod
changes nothing. -/
theorem imagePod_backfill_fixed (img : String) (j : Option PodSpec) :
    imagePod img (some (backfillPod (imagePod img j))) =
      backfillPod (imagePod img j) := by
  obtain ⟨c, t, hct, hcimg⟩ := imagePod_containers img j
  have hbc : (backfillPod (imagePod img j)).containers =
      backfillContainer c :: t.map backfillContainer := by
    simp [backfillPod, hct]
  have hbi : (backfillContainer c).image = img := by
    rw [backfillContainer_image, hcimg]
  have hens : ensureNonemptyContainers (backfillPod (imagePod img j)) =
      backfillPod (imagePod img j) := by
    unfold ensureNonemptyContainers
    rw [hbc]
    simp
  rw [imagePod_some, hens, hbc, setHead_self _ _ _ hbi, ← hbc]

/-- The effect of CustomSource.Update on the trial job pod alone: pod-template
copy, then image step, then name back-fill. -/
def customJobPod (sc : CustomScenario) (j : Option PodSpec) : Option PodSpec :=
  let j :=
    match sc.podTemplate with
    | some pt => some pt
    | none => j
  let j := if sc.image ≠ "" then some (imagePod sc.image j) else j
  j.map backfillPod

/-- CustomSource.Update factors into independent actions on the job pod, the
initial delay, and the approximate runtime. -/
theorem customUpdateCore_eq (sc : CustomScenario) (e : GenExperiment) :
    customUpdateCore sc e =
      { trialTemplate :=
          { jobPod := customJobPod sc e.trialTemplate.jobPod
            initialDelaySeconds :=
              if sc.initialDelaySeconds > 0 then sc.initialDelaySeconds
              else e.trialTemplate.initialDelaySeconds
            approximateRuntimeSeconds :=
              if sc.approximateRuntimeSeconds > 0 then some sc.approximateRuntimeSeconds
              else e.trialTemplate.approximateRuntimeSeconds } } := by
  obtain ⟨⟨j, d, r⟩⟩ := e
  cases hpt : sc.podTemplate <;>
    cases j <;>
      simp only [customUpdateCore, podTemplateStep, delayStep, runtimeStep, imageStep,
        backfillStep, customJobPod, setTrialJobPod, ensureTrialJobPod, hpt, Option.map] <;>
      split_ifs <;>
      rfl

/-- Re-running the pod action of CustomSource.Update changes nothing. -/
theorem customJobPod_idem (sc : CustomScenario) (j : Option PodSpec) :
    customJobPod sc (customJobPod sc j) = customJobPod sc j := by
  cases hpt : sc.podTemplate with
  | some pt => simp [customJobPod, hpt]
  | none =>
      by_cases himg : sc.image = ""
      · cases j <;> simp [customJobPod, hpt, himg, backfillPod_idem]
      · simp [customJobPod, hpt, himg, imagePod_backfill_fixed, backfillPod_idem]

/-- CustomSource.Update is idempotent. -/
theorem customUpdateCore_idem (sc : CustomScenario) (e : GenExperiment) :
    customUpdateCore sc (customUpdateCore sc e) = customUpdateCore sc e := by
  simp only [customUpdateCore_eq, customJobPod_idem]
  split_ifs <;> rfl

/-- A successful LocustSource.Update result is a fixed point of the update. -/
theorem locustUpdate_fixed (jobImage : String) (ls : Option LocustScenario)
    (app : Option ApplicationModel) (e e2 : GenExperiment)
    (h : locustUpdate jobImage ls app e = Except.ok e2) :
    locustUpdate jobImage ls app e2 = Except.ok e2 := by
  match ls, app with
  | none, none =>
      injection h with h
      subst h
      rfl
  | none, some a =>
      injection h with h
      subst h
      rfl
  | some sc, none =>
      injection h with h
      subst h
      rfl
  | some sc, some a =>
      by_cases hing : a.ingressURL = ""
      · rw [locustUpdate] at h
        rw [if_pos hing] at h
        exact Except.noConfusion h
      · rw [locustUpdate] at h
        simp only [if_neg hing] at h
        injection h with h
        subst h
        rw [locustUpdate]
        simp only [if_neg hing]
        rfl

/-- C8: scenario-source Update is idempotent. CustomSource.Update applied to an
already-updated experiment produces the same experiment — in particular, missing
container names are back-filled from the image basename only on the first
application — and every experiment successfully produced by LocustSource.Update
is a fixed point of that update. -/
theorem c8_scenario_update_idempotent (sc : Option CustomScenario) (hasApp : Bool)
    (e : GenExperiment) (jobImage : String) (ls : Option LocustScenario)
    (app : Option ApplicationModel) (e₀ e₁ : GenExperiment)
    (h : locustUpdate jobImage ls app e₀ = Except.ok e₁) :
    customUpdate sc hasApp (customUpdate sc hasApp e) = customUpdate sc hasApp e ∧
      locustUpdate jobImage ls app e₁ = Except.ok e₁ := by
  constructor
  · match sc, hasApp with
    | some sc, true => exact customUpdateCore_idem sc e
    | some sc, false => rfl
    | none, true => rfl
    | none, false => rfl
  · exact locustUpdate_fixed jobImage ls app e₀ e₁ h

/-- A Custom scenario declaring only an image, as a concrete update input. -/
def witnessCustomScenario : CustomScenario :=
  { podTemplate := none, initialDelaySeconds := 0, approximateRuntimeSeconds := 0,
    image := "docker.io/library/nginx:1.21", usePushGateway := false }

/-- An experiment whose job pod has a single unnamed container. -/
def witnessExperiment : GenExperiment :=
  { trialTemplate :=
      { jobPod := some { containers := [emptyContainer], volumes := [] },
        initialDelaySeconds := 0, approximateRuntimeSeconds := none } }

-- The back-fill derives the container name from the image basename.
example : backfillName "docker.io/library/nginx:1.21" = "nginx" := by decide

example :
    customUpdate (some witnessCustomScenario) true witnessExperiment =
      { trialTemplate :=
          { jobPod := some
              { containers := [{ name := "nginx", image := "docker.io/library/nginx:1.21",
                                 env := [], volumeMounts := [] }],
                volumes := [] },
            initialDelaySeconds := 0, approximateRuntimeSeconds := none } } := by decide

/-- A Locust scenario with users, spawn rate and run time set. -/
def witnessLocustScenario : LocustScenario :=
  { name := "default", users := some 5, spawnRate := some 1, runTimeSeconds := some 60,
    locustfile := "locustfile.py" }

/-- An experiment with no job template yet. -/
def witnessEmptyGen : GenExperiment :=
  { trialTemplate :=
      { jobPod := none, initialDelaySeconds := 0, approximateRuntimeSeconds := none } }

/-- The experiment produced by LocustSource.Update on `witnessEmptyGen`. -/
def witnessLocustResult : GenExperiment :=
  { trialTemplate :=
      { jobPod := some
          { containers :=
              [{ name := "locust", image := "img-locust",
                 env := [{ name := "NUM_USERS", value := "5" },
                         { name := "SPAWN_RATE", value := "1" },
                         { name := "RUN_TIME", value := "60" },
                         { name := "HOST", value := "http://example.com" }],
                 volumeMounts := [{ name := "locustfile", readOnly := true,
                                    mountPath := "/mnt/locust" }] }],
            volumes := [{ name := "locustfile", configMapName := "default-locustfile" }] },
        initialDelaySeconds := 0, approximateRuntimeSeconds := none } }

/-- Witness for C8: the image-only Custom update is idempotent on a concrete
experiment, and the concrete Locust update result is a fixed point. -/
theorem c8_scenario_update_idempotent_witness :
    customUpdate (some witnessCustomScenario) true
        (customUpdate (some witnessCustomScenario) true witnessExperiment) =
      customUpdate (some witnessCustomScenario) true witnessExperiment ∧
      locustUpdate "img-locust" (some witnessLocustScenario)
          (some { ingressURL := "http://example.com" }) witnessLocustResult =
        Except.ok witnessLocustResult :=
  c8_scenario_update_idempotent (some witnessCustomScenario) true witnessExperiment
    "img-locust" (some witnessLocustScenario) (some { ingressURL := "http://example.com" })
    witnessEmptyGen witnessLocustResult rfl

/-! ## Quantity scaler (src/internal/experiment/generation/quantity.go) -/

/-- Quantity formats (resource.Format): binary or decimal SI. -/
inductive Format where
  | binarySI
  | decimalSI
  deriving DecidableEq, Repr

/-- A resource quantity as read by AsScaledInt: its canonical integer value
(q.Value()) and its format. -/
structure Quantity where
  value : Int
  format : Format
  deriving DecidableEq, Repr

/-- Two's-complement wrap of an integer into the n-bit signed range: the
semantics of a Go integer conversion such as int32(v). -/
def wrapSigned (bits : Nat) (v : Int) : Int :=
  if Int.emod v (2 ^ bits) < 2 ^ (bits - 1) then Int.emod v (2 ^ bits)
  else Int.emod v (2 ^ bits) - 2 ^ bits

/-- The division loop of AsScaledInt: divide by 1024 (Go int64 division,
truncating toward zero) once per step. -/
def divLoop (v : Int) (e : Nat) : Int :=
  match e with
  | 0 => v
  | e + 1 => divLoop (Int.tdiv v 1024) e

/-- The multiplication loop of AsScaledInt: multiply by 1024 once per step,
wrapping in 64-bit signed arithmetic as Go's int64 multiplication does. -/
def mulLoop (v : Int) (e : Nat) : Int :=
  match e with
  | 0 => v
  | e + 1 => mulLoop (wrapSigned 64 (v * 1024)) e

/-- AsScaledInt (src/internal/experiment/generation/quantity.go, lines 26-43).
For a non-binary quantity it defers to the external library's ScaledValue,
passed in as `scaledValueDec`; for a binary quantity it divides (scale > 0) or
multiplies (otherwise) the raw value by 1024 once per three units of scale, the
step count being the truncated division of scale by 3, and finally converts to
int32. -/
def asScaledInt (scaledValueDec : Int → Int → Int) (q : Quantity) (scale : Int) : Int :=
  if q.format ≠ Format.binarySI then wrapSigned 32 (scaledValueDec q.value scale)
  else if scale > 0 then wrapSigned 32 (divLoop q.value (Int.tdiv scale 3).toNat)
  else wrapSigned 32 (mulLoop q.value (-(Int.tdiv scale 3)).toNat)

-- The doc-comment example of AsScaledInt: one binary unit at scale Milli (-3)
-- is 1024; and concrete checks of division, of the truncated exponent for
-- scales not divisible by three, and of negative values truncating toward zero.
example :
    asScaledInt (fun v _ => v) { value := 1, format := Format.binarySI } (-3) = 1024 := by
  decide

example :
    asScaledInt (fun v _ => v) { value := 2048, format := Format.binarySI } 3 = 2 := by
  decide

example :
    asScaledInt (fun v _ => v) { value := 5000, format := Format.binarySI } 2 = 5000 := by
  decide

example :
    asScaledInt (fun v _ => v) { value := -2049, format := Format.binarySI } 3 = -2 := by
  decide

/-- Truncated division composes: dividing by `a` and then by `b` is dividing by
`a * b`, for natural divisors. -/
theorem tdiv_tdiv_nat (v : Int) (a b : Nat) :
    Int.tdiv (Int.tdiv v (a : Int)) (b : Int) = Int.tdiv v ((a * b : Nat) : Int) := by
  cases v with
  | ofNat n =>
      simp only [Int.ofNat_eq_natCast]
      rw [← Int.ofNat_tdiv, ← Int.ofNat_tdiv, ← Int.ofNat_tdiv, Nat.div_div_eq_div_mul]
  | negSucc m =>
      have h : Int.negSucc m = -((m + 1 : Nat) : Int) := by
        rw [Int.negSucc_eq]
        push_cast
        ring
      rw [h, Int.neg_tdiv, Int.neg_tdiv, Int.neg_tdiv, ← Int.ofNat_tdiv, ← Int.ofNat_tdiv,
        ← Int.ofNat_tdiv, Nat.div_div_eq_div_mul]

/-- The division loop computes a single truncated division by 1024^e. -/
theorem divLoop_eq (v : Int) (e : Nat) :
    divLoop v e = Int.tdiv v ((1024 ^ e : Nat) : Int) := by
  induction e generalizing v with
  | zero => simp [divLoop]
  | succ e ih =>
      rw [divLoop, ih]
      have h1 : ((1024 : Nat) : Int) = (1024 : Int) := by norm_cast
      have h2 := tdiv_tdiv_nat v 1024 (1024 ^ e)
      rw [h1] at h2
      rw [h2]
      congr 1
      push_cast
      ring

/-- The wrap preserves the residue modulo 2^bits. -/
theorem wrapSigned_modeq (bits : Nat) (x : Int) :
    Int.ModEq (2 ^ bits) (wrapSigned bits x) x := by
  unfold wrapSigned
  split
  · exact Int.emod_emod_of_dvd x dvd_rfl
  · have h1 : Int.ModEq (2 ^ bits) (Int.emod x (2 ^ bits)) x :=
      Int.emod_emod_of_dvd x dvd_rfl
    have h2 : Int.ModEq (2 ^ bits) (Int.emod x (2 ^ bits) - 2 ^ bits)
        (Int.emod x (2 ^ bits)) := by
      simpa using (Int.ModEq.refl (Int.emod x (2 ^ bits))).sub
        (Int.modEq_zero_iff_dvd.mpr dvd_rfl)
    exact h2.trans h1

/-- Same residue modulo 2^bits, same wrapped value. -/
theorem wrapSigned_congr (bits : Nat) (x y : Int)
    (h : Int.ModEq (2 ^ bits) x y) : wrapSigned bits x = wrapSigned bits y := by
  unfold wrapSigned
  rw [show Int.emod x (2 ^ bits) = Int.emod y (2 ^ bits) from h]

/-- After the final 32-bit conversion, the multiplication loop computes the
exact product by 1024^e: the intermediate 64-bit wraps do not affect the low
32 bits. -/
theorem wrap32_mulLoop (v : Int) (e : Nat) :
    wrapSigned 32 (mulLoop v e) = wrapSigned 32 (v * 1024 ^ e) := by
  induction e generalizing v with
  | zero => simp [mulLoop]
  | succ e ih =>
      rw [mulLoop, ih]
      apply wrapSigned_congr
      have h64 : Int.ModEq (2 ^ 64) (wrapSigned 64 (v * 1024)) (v * 1024) :=
        wrapSigned_modeq 64 (v * 1024)
      have h32 : Int.ModEq (2 ^ 32) (wrapSigned 64 (v * 1024)) (v * 1024) :=
        h64.of_dvd (pow_dvd_pow 2 (by norm_num))
      have hmul := h32.mul_right ((1024 : Int) ^ e)
      have heq : (v * 1024) * 1024 ^ e = v * 1024 ^ (e + 1) := by ring
      rw [← heq]
      exact hmul

/-- C10: for every binary-format quantity, AsScaledInt computes the truncated
division of the raw value by 1024^(scale/3) when scale is positive, and the
multiplication by 1024^(-(scale/3)) when scale is negative, the exponent being
the truncated integer division of scale by 3, and the result converted to the
32-bit signed range by (two's-complement) truncation. -/
theorem c10_asScaledInt_binary (dec : Int → Int → Int) (q : Quantity) (scale : Int)
    (hfmt : q.format = Format.binarySI) :
    (scale > 0 →
      asScaledInt dec q scale =
        wrapSigned 32 (Int.tdiv q.value ((1024 ^ (Int.tdiv scale 3).toNat : Nat) : Int))) ∧
    (scale < 0 →
      asScaledInt dec q scale =
        wrapSigned 32 (q.value * 1024 ^ (-(Int.tdiv scale 3)).toNat)) := by
  have hfc : ¬(q.format ≠ Format.binarySI) := fun hc => hc hfmt
  constructor
  · intro hpos
    rw [asScaledInt, if_neg hfc, if_pos hpos, divLoop_eq]
  · intro hneg
    have hnp : ¬scale > 0 := by omega
    rw [asScaledInt, if_neg hfc, if_neg hnp, wrap32_mulLoop]

/-- Witness for C10: a binary quantity of 2048 at scale 3 divides to 2, and one
of 1 at scale -3 multiplies to 1024, matching the closed forms. -/
theorem c10_asScaledInt_binary_witness :
    asScaledInt (fun v _ => v) { value := 2048, format := Format.binarySI } 3 =
        wrapSigned 32 (Int.tdiv 2048 ((1024 ^ (Int.tdiv 3 3).toNat : Nat) : Int)) ∧
      asScaledInt (fun v _ => v) { value := 1, format := Format.binarySI } (-3) =
        wrapSigned 32 (1 * 1024 ^ (-(Int.tdiv (-3) 3)).toNat) := by
  constructor
  · exact (c10_asScaledInt_binary (fun v _ => v)
      { value := 2048, format := Format.binarySI } 3 rfl).1 (by norm_num)
  · exact (c10_asScaledInt_binary (fun v _ => v)
      { value := 1, format := Format.binarySI } (-3) rfl).2 (by norm_num)

/-! ## Scenario sources: Metrics (src/unnamed/part_006 CustomSource.Metrics) -/

/-- A parsed label selector (opaque to CustomSource.Metrics: it only stores the
result of the external parser). -/
structure LabelSelector where
  matchLabels : List (String × String)
  deriving DecidableEq, Repr

/-- The resource target attached to a requests metric. -/
structure ResourceTarget where
  apiVersion : String
  kind : String
  labelSelector : LabelSelector
  deriving DecidableEq, Repr

/-- A generated (v1beta1) metric: the fields CustomSource.Metrics writes. -/
structure Metric where
  name : String
  query : String
  type : String
  target : Option ResourceTarget
  deriving DecidableEq, Repr

/-- A Requests goal: a label selector string and per-resource weights; each
weight is the quantity's canonical integer value (q.Value()). Go iterates the
weights map in unspecified order; the model keeps them as an ordered list. -/
structure RequestsGoal where
  selector : String
  weights : List (String × Int)
  deriving DecidableEq, Repr

/-- An objective goal, restricted to the fields CustomSource.Metrics reads: its
name, the Implemented marker, and the optional Requests variant (goals of every
other kind fall through the switch and emit nothing, exactly as a goal with no
Requests field does). -/
structure Goal where
  name : String
  implemented : Bool
  requests : Option RequestsGoal
  deriving DecidableEq, Repr

/-- A named list of goals. -/
structure Objective where
  goals : List Goal
  deriving DecidableEq, Repr

/-- Modelled from the spec: newGoalMetric (not under src/) builds a metric named
after the goal carrying the supplied query; CustomSource.Metrics then clears its
type and attaches a pod-list target. -/
def newGoalMetric (g : Goal) (query : String) : Metric :=
  { name := g.name, query := query, type := "prometheus", target := none }

/-- The per-resource weight scaling of CustomSource.Metrics: the declared weight
divided by 1000^4 for the memory resource and by 1000^1 for every other
resource. Go computes the quotient in float64; the model uses exact rationals. -/
def requestsWeight (resourceName : String) (q : Int) : ℚ :=
  if resourceName = "memory" then (q : ℚ) / 1000 ^ (4 : ℕ)
  else (q : ℚ) / 1000 ^ (1 : ℕ)

/-- All scaled weights of a requests goal, in declaration order. -/
def requestsWeights (weights : List (String × Int)) : List (String × ℚ) :=
  weights.map fun nq => (nq.1, requestsWeight nq.1 nq.2)

/-- The templated resource-request query of CustomSource.Metrics: the scaled
weights are rendered name=value and comma-joined inside the quoted argument of
the resourceRequests template call; Go's shortest-decimal float rendering is
supplied as `fmtWeight`. -/
def requestsQuery (fmtWeight : ℚ → String) (weights : List (String × Int)) : String :=
  "\x7b\x7b resourceRequests .Target \"" ++
    String.intercalate ","
      ((requestsWeights weights).map fun nw => nw.1 ++ "=" ++ fmtWeight nw.2) ++
    "\" \x7d\x7d"

/-- The goal loop of CustomSource.Metrics (src/unnamed/part_006, lines 84-131):
implemented goals are skipped; a Requests goal is skipped when the scenario uses
the push gateway, fails the whole call when its selector does not parse, and
otherwise emits one typeless metric with the templated query and a PodList
target; goals of any other kind emit nothing. The external selector parser is
supplied as `parse`. -/
def customMetricsGoals (parse : String → Except String LabelSelector)
    (fmtWeight : ℚ → String) (useGw : Bool) :
    List Goal → Except String (List Metric)
  | [] => Except.ok []
  | goal :: rest =>
      if goal.implemented then customMetricsGoals parse fmtWeight useGw rest
      else
        match goal.requests with
        | some req =>
            if useGw then customMetricsGoals parse fmtWeight useGw rest
            else
              match parse req.selector with
              | Except.error e => Except.error e
              | Except.ok sel =>
                  match customMetricsGoals parse fmtWeight useGw rest with
                  | Except.error e => Except.error e
                  | Except.ok ms =>
                      Except.ok
                        ({ newGoalMetric goal (requestsQuery fmtWeight req.weights) with
                           type := ""
                           target := some { apiVersion := "v1", kind := "PodList",
                                            labelSelector := sel } } :: ms)
        | none => customMetricsGoals parse fmtWeight useGw rest

/-- CustomSource.Metrics (src/unnamed/part_006): an absent objective yields no
metrics; otherwise the goals are processed in order. -/
def customMetrics (parse : String → Except String LabelSelector)
    (fmtWeight : ℚ → String) (sc : CustomScenario) (objective : Option Objective) :
    Except String (List Metric) :=
  match objective with
  | none => Except.ok []
  | some obj => customMetricsGoals parse fmtWeight sc.usePushGateway obj.goals

/-- A selector parser that accepts everything, for concrete evaluations. -/
def trivialSelectorParse (_s : String) : Except String LabelSelector :=
  Except.ok { matchLabels := [] }

/-- A selector parser that rejects everything, for concrete evaluations. -/
def failingSelectorParse (_s : String) : Except String LabelSelector :=
  Except.error "unable to parse requirement"

/-- A Custom scenario that uses the push gateway. -/
def pushGatewayScenario : CustomScenario :=
  { podTemplate := none, initialDelaySeconds := 0, approximateRuntimeSeconds := 0,
    image := "", usePushGateway := true }

/-- A Custom scenario that does not use the push gateway. -/
def noPushGatewayScenario : CustomScenario :=
  { podTemplate := none, initialDelaySeconds := 0, approximateRuntimeSeconds := 0,
    image := "", usePushGateway := false }

/-- A concrete unimplemented Requests goal. -/
def witnessRequestsGoal : Goal :=
  { name := "cost", implemented := false,
    requests := some { selector := "app=shop",
                       weights := [("memory", 1000000000), ("cpu", 17)] } }

/-- C9 counterexample: a Requests goal that is not marked Implemented emits no
metric at all when the Custom scenario uses the push gateway — Metrics returns
an empty list, not a single resource-request metric, even though the goal's
selector is well-formed. -/
theorem c9_pushgateway_counterexample :
    customMetrics trivialSelectorParse (fun _ => "0") pushGatewayScenario
        (some { goals := [witnessRequestsGoal] }) = Except.ok [] := rfl

/-- C9 (amended): for every Custom-scenario Objective goal of kind Requests that
is not marked Implemented, when the scenario does not use the push gateway,
Metrics emits a single templated resource-request query metric (typeless, with a
v1 PodList target holding the parsed selector) whose per-resource weights are
the declared weight values divided by 1000^4 for the memory resource and by
1000^1 for every other resource; a malformed label selector on such a goal makes
Metrics return the parse error instead of a metric list. With the push gateway
enabled the goal is skipped. -/
theorem c9_requests_metric (parse : String → Except String LabelSelector)
    (fmt : ℚ → String) (sc : CustomScenario) (g : Goal) (r : RequestsGoal)
    (hgw : sc.usePushGateway = false) (hreq : g.requests = some r)
    (himp : g.implemented = false) :
    (∀ e, parse r.selector = Except.error e →
        customMetrics parse fmt sc (some { goals := [g] }) = Except.error e) ∧
    (∀ sel, parse r.selector = Except.ok sel →
        customMetrics parse fmt sc (some { goals := [g] }) =
          Except.ok [{ name := g.name, query := requestsQuery fmt r.weights,
                       type := "",
                       target := some { apiVersion := "v1", kind := "PodList",
                                        labelSelector := sel } }]) ∧
    (∀ q : Int, requestsWeight "memory" q = (q : ℚ) / 1000 ^ (4 : ℕ)) ∧
    (∀ n q, n ≠ "memory" → requestsWeight n q = (q : ℚ) / 1000) := by
  refine ⟨?_, ?_, ?_, ?_⟩
  · intro e he
    simp [customMetrics, customMetricsGoals, hgw, hreq, himp, he]
  · intro sel hsel
    simp [customMetrics, customMetricsGoals, hgw, hreq, himp, hsel, newGoalMetric]
  · intro q
    simp [requestsWeight]
  · intro n q hn
    simp [requestsWeight, hn]

/-- Witness for C9 (amended): on a concrete Requests goal the failing parser
aborts Metrics with its error and the accepting parser yields exactly one
metric; the weight scaling evaluates on memory and cpu weights. -/
theorem c9_requests_metric_witness :
    customMetrics failingSelectorParse (fun _ => "0") noPushGatewayScenario
        (some { goals := [witnessRequestsGoal] }) =
      Except.error "unable to parse requirement" ∧
    customMetrics trivialSelectorParse (fun _ => "0") noPushGatewayScenario
        (some { goals := [witnessRequestsGoal] }) =
      Except.ok
        [{ name := "cost",
           query := requestsQuery (fun _ => "0")
             [("memory", 1000000000), ("cpu", 17)],
           type := "",
           target := some { apiVersion := "v1", kind := "PodList",
                            labelSelector := { matchLabels := [] } } }] ∧
    requestsWeight "memory" 1000000000 = (1000000000 : ℚ) / 1000 ^ (4 : ℕ) ∧
    requestsWeight "cpu" 17 = (17 : ℚ) / 1000 := by
  refine ⟨?_, ?_, ?_, ?_⟩
  · exact (c9_requests_metric failingSelectorParse (fun _ => "0") noPushGatewayScenario
      witnessRequestsGoal { selector := "app=shop",
                            weights := [("memory", 1000000000), ("cpu", 17)] }
      rfl rfl rfl).1 "unable to parse requirement" rfl
  · exact (c9_requests_metric trivialSelectorParse (fun _ => "0") noPushGatewayScenario
      witnessRequestsGoal { selector := "app=shop",
                            weights := [("memory", 1000000000), ("cpu", 17)] }
      rfl rfl rfl).2.1 { matchLabels := [] } rfl
  · exact (c9_requests_metric trivialSelectorParse (fun _ => "0") noPushGatewayScenario
      witnessRequestsGoal { selector := "app=shop",
                            weights := [("memory", 1000000000), ("cpu", 17)] }
      rfl rfl rfl).2.2.1 1000000000
  · exact (c9_requests_metric trivialSelectorParse (fun _ => "0") noPushGatewayScenario
      witnessRequestsGoal { selector := "app=shop",
                            weights := [("memory", 1000000000), ("cpu", 17)] }
      rfl rfl rfl).2.2.2 "cpu" 17 (by decide)

end RedSky
